import Mathlib

/-!
Verification of the StaticWaves Unreal music subsystem
(`src/game-integration/unreal/StaticWavesMusicSubsystem.{h,cpp}`).

The subsystem is embedded shallowly: the float fields are modelled as exact
rationals (`ℚ`), the engine math helpers (`FMath::Lerp`, `FMath::Clamp`,
`FMath::Max`) are translated literally, and the stateful methods of
`UStaticWavesMusicSubsystem` become pure state transformers on a record
mirroring the class's data members.  Methods that may call
`SendControlUpdate` additionally return the list of frames sent over the
WebSocket during the call (the `%.2f`-serialized context, modelled as the
quadruple of rounded hundredths).
-/

/-- `FMusicContext` (StaticWavesMusicSubsystem.h): the four mood parameters. -/
structure FMusicContext where
  Energy : ℚ
  Tension : ℚ
  Darkness : ℚ
  Complexity : ℚ
deriving DecidableEq

/-- The `FMusicContext()` constructor: every field defaults to `0.5f`. -/
def FMusicContext.mkDefault : FMusicContext := ⟨1/2, 1/2, 1/2, 1/2⟩

namespace FMath

/-- `FMath::Lerp(A, B, Alpha) = A + Alpha * (B - A)`, in exact
arithmetic.  This idealizes the float32 rounding of the source; the
rounding-sensitive terminal-convergence claim is settled against the
binary32 re-model (`lerp32`) below instead. -/
def Lerp (A B Alpha : ℚ) : ℚ := A + Alpha * (B - A)

/-- `FMath::Clamp(X, Lo, Hi) = X < Lo ? Lo : (X < Hi ? X : Hi)`. -/
def Clamp (X Lo Hi : ℚ) : ℚ := if X < Lo then Lo else if X < Hi then X else Hi

/-- `FMath::Max(A, B) = (B < A) ? A : B`. -/
def Max (A B : ℚ) : ℚ := if B < A then A else B

end FMath

/-- One serialized control frame: the four fields of
`FMusicContext::ToJson()` (printf `%.2f` each, key order
energy, tension, darkness, complexity), modelled as rounded hundredths. -/
structure Frame where
  energy : ℤ
  tension : ℤ
  darkness : ℤ
  complexity : ℤ
deriving DecidableEq

/-- `%.2f` of one field: the value in hundredths, rounded. -/
def roundTo2 (x : ℚ) : ℤ := round (100 * x)

/-- `FMusicContext::ToJson()`, modelled as the quadruple of `%.2f` fields. -/
def FMusicContext.serialize (C : FMusicContext) : Frame :=
  ⟨roundTo2 C.Energy, roundTo2 C.Tension, roundTo2 C.Darkness, roundTo2 C.Complexity⟩

/-- The data members of `UStaticWavesMusicSubsystem`.  `hasValidWebSocket`
models `WebSocket.IsValid()`; `socketsCreated` is a ghost counter of
`FWebSocketsModule::CreateWebSocket` calls, used only to state
socket-duplication properties. -/
structure SubsystemState where
  CurrentContext : FMusicContext
  TargetContext : FMusicContext
  TransitionAlpha : ℚ
  TransitionDuration : ℚ
  bIsConnected : Bool
  hasValidWebSocket : Bool
  ServerURL : String
  socketsCreated : ℕ
deriving DecidableEq

/-- Field defaults of the class (header initializers and the constructor:
`CurrentContext = FMusicContext(); TargetContext = CurrentContext;
TransitionAlpha = 1.0f; TransitionDuration = 1.0f; bIsConnected = false`). -/
def initialState : SubsystemState :=
  { CurrentContext := FMusicContext.mkDefault
    TargetContext := FMusicContext.mkDefault
    TransitionAlpha := 1
    TransitionDuration := 1
    bIsConnected := false
    hasValidWebSocket := false
    ServerURL := ""
    socketsCreated := 0 }

/-- `UStaticWavesMusicSubsystem::SendControlUpdate`: sends one frame iff
`bIsConnected && WebSocket.IsValid()`. -/
def SendControlUpdate (S : SubsystemState) : List Frame :=
  if S.bIsConnected && S.hasValidWebSocket then [S.CurrentContext.serialize] else []

/-- `UStaticWavesMusicSubsystem::SetMusicContext`. -/
def SetMusicContext (S : SubsystemState) (Context : FMusicContext) :
    SubsystemState × List Frame :=
  let S1 := { S with CurrentContext := Context, TargetContext := Context,
                     TransitionAlpha := 1 }
  (S1, SendControlUpdate S1)

/-- `UStaticWavesMusicSubsystem::TransitionToContext` (TransitionTime
defaults to `1.0f` at call sites that omit it). -/
def TransitionToContext (S : SubsystemState) (Context : FMusicContext)
    (TransitionTime : ℚ) : SubsystemState :=
  { S with TargetContext := Context
           TransitionDuration := FMath.Max (1/10) TransitionTime
           TransitionAlpha := 0 }

/-- The preset context built by `SetExploration`. -/
def ExplorationContext : FMusicContext := ⟨3/10, 1/10, 2/10, 4/10⟩

/-- The preset context built by `SetCombat`. -/
def CombatContext : FMusicContext := ⟨9/10, 8/10, 6/10, 7/10⟩

/-- The preset context built by `SetBoss`. -/
def BossContext : FMusicContext := ⟨1, 95/100, 8/10, 9/10⟩

/-- The preset context built by `SetPuzzle`. -/
def PuzzleContext : FMusicContext := ⟨4/10, 5/10, 3/10, 6/10⟩

/-- The preset context built by `SetVictory`. -/
def VictoryContext : FMusicContext := ⟨7/10, 2/10, 1/10, 5/10⟩

/-- `UStaticWavesMusicSubsystem::SetExploration`. -/
def SetExploration (S : SubsystemState) : SubsystemState :=
  TransitionToContext S ExplorationContext 1

/-- `UStaticWavesMusicSubsystem::SetCombat`. -/
def SetCombat (S : SubsystemState) : SubsystemState :=
  TransitionToContext S CombatContext 1

/-- `UStaticWavesMusicSubsystem::SetBoss`. -/
def SetBoss (S : SubsystemState) : SubsystemState :=
  TransitionToContext S BossContext 1

/-- `UStaticWavesMusicSubsystem::SetPuzzle`. -/
def SetPuzzle (S : SubsystemState) : SubsystemState :=
  TransitionToContext S PuzzleContext 1

/-- `UStaticWavesMusicSubsystem::SetVictory`. -/
def SetVictory (S : SubsystemState) : SubsystemState :=
  TransitionToContext S VictoryContext 1

/-- `UStaticWavesMusicSubsystem::PushMusicEvent` (Intensity defaults to
`1.0f`).  Event names are modelled as strings compared for equality. -/
def PushMusicEvent (S : SubsystemState) (EventName : String) (Intensity : ℚ) :
    SubsystemState :=
  if EventName = "combat_start" then SetCombat S
  else if EventName = "boss_enter" then SetBoss S
  else if EventName = "puzzle_start" then SetPuzzle S
  else if EventName = "victory" then SetVictory S
  else
    TransitionToContext S
      { S.CurrentContext with Tension := FMath.Clamp Intensity 0 1 } (1/2)

/-- `UStaticWavesMusicSubsystem::Tick`. -/
def Tick (S : SubsystemState) (DeltaTime : ℚ) : SubsystemState × List Frame :=
  if S.TransitionAlpha < 1 then
    let A := FMath.Clamp (S.TransitionAlpha + DeltaTime / S.TransitionDuration) 0 1
    let S1 : SubsystemState :=
      { S with TransitionAlpha := A
               CurrentContext :=
                 ⟨FMath.Lerp S.CurrentContext.Energy S.TargetContext.Energy A,
                  FMath.Lerp S.CurrentContext.Tension S.TargetContext.Tension A,
                  FMath.Lerp S.CurrentContext.Darkness S.TargetContext.Darkness A,
                  FMath.Lerp S.CurrentContext.Complexity S.TargetContext.Complexity A⟩ }
    (S1, SendControlUpdate S1)
  else (S, [])

/-- `UStaticWavesMusicSubsystem::Connect`: early-returns (with a warning)
iff `bIsConnected`; otherwise records the URL and creates a fresh
WebSocket, overwriting any existing one. -/
def Connect (S : SubsystemState) (InServerURL : String) : SubsystemState :=
  if S.bIsConnected then S
  else { S with ServerURL := InServerURL
                hasValidWebSocket := true
                socketsCreated := S.socketsCreated + 1 }

/-- `UStaticWavesMusicSubsystem::Disconnect`: early-returns iff
`!bIsConnected`; otherwise closes and resets the socket when it is valid
and clears `bIsConnected`. -/
def Disconnect (S : SubsystemState) : SubsystemState :=
  if !S.bIsConnected then S
  else
    let S1 := if S.hasValidWebSocket then { S with hasValidWebSocket := false } else S
    { S1 with bIsConnected := false }

/-- `UStaticWavesMusicSubsystem::OnConnected`: sets `bIsConnected` and
pushes the current context once. -/
def OnConnected (S : SubsystemState) : SubsystemState × List Frame :=
  let S1 := { S with bIsConnected := true }
  (S1, SendControlUpdate S1)

/-- `UStaticWavesMusicSubsystem::OnConnectionError`. -/
def OnConnectionError (S : SubsystemState) : SubsystemState :=
  { S with bIsConnected := false }

/-- `UStaticWavesMusicSubsystem::OnClosed`. -/
def OnClosed (S : SubsystemState) : SubsystemState :=
  { S with bIsConnected := false }

/-- The externally triggerable happenings of the subsystem: public calls
and transport callbacks, all of which run to completion one at a time. -/
inductive Event where
  | connectEv (url : String)
  | disconnectEv
  | setMusicContextEv (C : FMusicContext)
  | transitionToContextEv (C : FMusicContext) (T : ℚ)
  | pushMusicEventEv (N : String) (I : ℚ)
  | tickEv (Dt : ℚ)
  | onConnectedEv
  | onConnectionErrorEv
  | onClosedEv
deriving DecidableEq

/-- Dispatch one event to the corresponding method; result state plus the
frames the call sent. -/
def step (S : SubsystemState) : Event → SubsystemState × List Frame
  | .connectEv url => (Connect S url, [])
  | .disconnectEv => (Disconnect S, [])
  | .setMusicContextEv C => SetMusicContext S C
  | .transitionToContextEv C T => (TransitionToContext S C T, [])
  | .pushMusicEventEv N I => (PushMusicEvent S N I, [])
  | .tickEv Dt => Tick S Dt
  | .onConnectedEv => OnConnected S
  | .onConnectionErrorEv => (OnConnectionError S, [])
  | .onClosedEv => (OnClosed S, [])

/-- Run a sequence of events; the frames of each event are emitted in
order before those of later events (single-threaded run-to-completion). -/
def run : SubsystemState → List Event → SubsystemState × List Frame
  | S, [] => (S, [])
  | S, e :: es =>
    ((run (step S e).1 es).1, (step S e).2 ++ (run (step S e).1 es).2)

/-! ### Specification-side formulations and concrete states -/

/-- Modelled from the spec: `lerp(a, b, t)` as the standard affine blend. -/
def specLerp (a b t : ℚ) : ℚ := (1 - t) * a + t * b

/-- Modelled from the spec (§4.1): `clamp()` projects each field of a
context into [0,1].  Used only to compare the spec's claimed clamping
against what the code stores. -/
def specClampContext (C : FMusicContext) : FMusicContext :=
  ⟨min 1 (max 0 C.Energy), min 1 (max 0 C.Tension),
   min 1 (max 0 C.Darkness), min 1 (max 0 C.Complexity)⟩

/-- Modelled from the spec (§4.2 `advance`): no-op when progress ≥ 1;
otherwise increment progress by `deltaTime / durationSeconds`, clamp it to
[0,1], and re-lerp every field of `current` toward `target` using the new
progress value. -/
def specAdvance (S : SubsystemState) (Dt : ℚ) : SubsystemState :=
  if 1 ≤ S.TransitionAlpha then S
  else
    let p := min 1 (max 0 (S.TransitionAlpha + Dt / S.TransitionDuration))
    { S with TransitionAlpha := p
             CurrentContext :=
               ⟨specLerp S.CurrentContext.Energy S.TargetContext.Energy p,
                specLerp S.CurrentContext.Tension S.TargetContext.Tension p,
                specLerp S.CurrentContext.Darkness S.TargetContext.Darkness p,
                specLerp S.CurrentContext.Complexity S.TargetContext.Complexity p⟩ }

/-- `x` lies in the canonical field range [0,1]. -/
abbrev InRange01 (x : ℚ) : Prop := 0 ≤ x ∧ x ≤ 1

/-- All four fields of a context lie in [0,1]. -/
abbrev InRangeCtx (C : FMusicContext) : Prop :=
  InRange01 C.Energy ∧ InRange01 C.Tension ∧ InRange01 C.Darkness ∧
    InRange01 C.Complexity

/-- Both the current and the target context lie in [0,1] on every field. -/
abbrev CtxInvariant (S : SubsystemState) : Prop :=
  InRangeCtx S.CurrentContext ∧ InRangeCtx S.TargetContext

/-- A context whose energy field is out of range. -/
def OutOfRangeContext : FMusicContext := ⟨2, 1/2, 1/2, 1/2⟩

/-- A state midway through a transition from all-zeros to all-ones. -/
def MidFlightState : SubsystemState :=
  { initialState with CurrentContext := ⟨0, 0, 0, 0⟩
                      TargetContext := ⟨1, 1, 1, 1⟩
                      TransitionAlpha := 1/2 }

/-- A connected state with a just-started transition whose target equals
the current context (so interpolation cannot move anything). -/
def ConnectedStaleTransitionState : SubsystemState :=
  { initialState with bIsConnected := true
                      hasValidWebSocket := true
                      TransitionAlpha := 0
                      socketsCreated := 1 }

/-- The state right after `Connect` from the initial state, before the
`OnConnected` callback has fired: a socket exists, `bIsConnected` is
still false. -/
def ConnectingState : SubsystemState := Connect initialState "ws://localhost:8765"

/-! ### Float32 re-model of the Tick arithmetic

The rational embedding above models the source's `float` expressions in
exact arithmetic.  That idealization is adequate for every claim except
the one asserting bitwise terminal convergence, which is sensitive to
IEEE-754 rounding: `A + 1.0f * (B - A)` computes `fl(A + fl(B - A))`,
which need not be bitwise `B`.  The definitions below re-model the same
`Tick` code path in binary32 arithmetic: a finite float is a dyadic
`num * 2 ^ exp`, and every operation is the exact dyadic/rational result
rounded to nearest-even at 24 significant bits with gradual underflow at
exponent -149 (overflow to infinity is not modelled; every value below is
far inside the normal range).  The result is unchanged if the compiler
fuses the multiply-add, because the multiplication by `1.0f` is exact. -/

/-- A finite binary32 value, as the dyadic `num * 2 ^ exp`. -/
structure Dyadic where
  num : ℤ
  exp : ℤ
deriving DecidableEq

/-- The value of a dyadic as an integer pair `p / q` with `q > 0`. -/
def Dyadic.toPair (x : Dyadic) : ℤ × ℕ :=
  if 0 ≤ x.exp then (x.num * 2 ^ x.exp.toNat, 1) else (x.num, 2 ^ (-x.exp).toNat)

/-- Exact value comparison of two dyadics (float comparisons are exact). -/
abbrev Dyadic.valLt (x y : Dyadic) : Prop :=
  x.toPair.1 * (y.toPair.2 : ℤ) < y.toPair.1 * (x.toPair.2 : ℤ)

/-- Exact value equality of two dyadics. -/
abbrev Dyadic.valEq (x y : Dyadic) : Prop :=
  x.toPair.1 * (y.toPair.2 : ℤ) = y.toPair.1 * (x.toPair.2 : ℤ)

/-- Fueled integer base-2 logarithm (floor), structural so that the
kernel can evaluate it. -/
def ilog2 : ℕ → ℕ → ℕ
  | 0, _ => 0
  | fuel + 1, n => if 2 ≤ n then ilog2 fuel (n / 2) + 1 else 0

/-- Round `n / d` (with `d > 0`) to the nearest integer, ties to even. -/
def rneNat (n d : ℕ) : ℕ :=
  let t := n / d
  let r := n % d
  if 2 * r < d then t
  else if d < 2 * r then t + 1
  else if t % 2 = 0 then t else t + 1

/-- Round the positive rational `a / q` (`a, q > 0`) to the nearest
binary32 value, ties to even: the rounding grid is `2 ^ (e - 23)` for
`a / q` in the normal binade `[2 ^ e, 2 ^ (e + 1))`, floored at the
subnormal grid `2 ^ (-149)`; magnitudes below `2 ^ (-200)` (far below
half the smallest subnormal) round to zero. -/
def fl32Pos (a q : ℕ) : Dyadic :=
  if a * 2 ^ 200 < q then ⟨0, 0⟩
  else
    let e : ℤ := (ilog2 500 (a * 2 ^ 200 / q) : ℤ) - 200
    let g : ℤ := max (e - 23) (-149)
    ⟨(rneNat (a * 2 ^ (-g).toNat) (q * 2 ^ g.toNat) : ℤ), g⟩

/-- Round the rational `p / q` (`q > 0`) to the nearest binary32 value,
ties to even (rounding commutes with negation). -/
def fl32 (p : ℤ) (q : ℕ) : Dyadic :=
  if p = 0 then ⟨0, 0⟩
  else if 0 < p then fl32Pos p.natAbs q
  else ⟨-(fl32Pos p.natAbs q).num, (fl32Pos p.natAbs q).exp⟩

/-- binary32 addition: the exact sum, rounded. -/
def f32add (x y : Dyadic) : Dyadic :=
  fl32 (x.toPair.1 * (y.toPair.2 : ℤ) + y.toPair.1 * (x.toPair.2 : ℤ))
    (x.toPair.2 * y.toPair.2)

/-- binary32 subtraction: the exact difference, rounded. -/
def f32sub (x y : Dyadic) : Dyadic :=
  fl32 (x.toPair.1 * (y.toPair.2 : ℤ) - y.toPair.1 * (x.toPair.2 : ℤ))
    (x.toPair.2 * y.toPair.2)

/-- binary32 multiplication: the exact product, rounded. -/
def f32mul (x y : Dyadic) : Dyadic :=
  fl32 (x.toPair.1 * y.toPair.1) (x.toPair.2 * y.toPair.2)

/-- binary32 division: the exact quotient, rounded (modelled for nonzero
divisors; `TransitionDuration` is always nonzero). -/
def f32div (x y : Dyadic) : Dyadic :=
  fl32 (x.toPair.1 * (y.toPair.2 : ℤ) * Int.sign y.toPair.1)
    (x.toPair.2 * y.toPair.1.natAbs)

/-- `FMath::Lerp` in binary32: `A + Alpha * (B - A)`, each operation
rounded. -/
def lerp32 (A B Alpha : Dyadic) : Dyadic :=
  f32add A (f32mul Alpha (f32sub B A))

/-- `FMath::Clamp` in binary32: comparisons are exact and the result is
one of the operands, so no rounding occurs. -/
def clamp32 (X Lo Hi : Dyadic) : Dyadic :=
  if X.valLt Lo then Lo else if X.valLt Hi then X else Hi

/-- The four context fields in binary32. -/
structure FMusicContext32 where
  Energy : Dyadic
  Tension : Dyadic
  Darkness : Dyadic
  Complexity : Dyadic
deriving DecidableEq

/-- The transition-relevant data members in binary32. -/
structure SubsystemState32 where
  CurrentContext : FMusicContext32
  TargetContext : FMusicContext32
  TransitionAlpha : Dyadic
  TransitionDuration : Dyadic
deriving DecidableEq

/-- `UStaticWavesMusicSubsystem::Tick`, the transition arithmetic only,
in binary32 (the conditional send does not touch the contexts or the
progress and is omitted). -/
def Tick32 (S : SubsystemState32) (DeltaTime : Dyadic) : SubsystemState32 :=
  if S.TransitionAlpha.valLt ⟨1, 0⟩ then
    let A := clamp32 (f32add S.TransitionAlpha (f32div DeltaTime S.TransitionDuration))
      ⟨0, 0⟩ ⟨1, 0⟩
    { S with TransitionAlpha := A
             CurrentContext :=
               ⟨lerp32 S.CurrentContext.Energy S.TargetContext.Energy A,
                lerp32 S.CurrentContext.Tension S.TargetContext.Tension A,
                lerp32 S.CurrentContext.Darkness S.TargetContext.Darkness A,
                lerp32 S.CurrentContext.Complexity S.TargetContext.Complexity A⟩ }
  else S

/-- A binary32 state about to finish a 1-second transition in one
1-second tick: current energy `0.5f`, target energy
`(2 ^ 23 + 1) * 2 ^ (-33)` (just above `2 ^ (-10)`), the other fields at
`0.5f`.  `B - A` rounds (no tie: the discarded part is 255/256 of an
ulp) to `B - A - 2 ^ (-33)`, so `A + fl(B - A) = B - 2 ^ (-33) =
2 ^ (-10)` exactly — one ulp short of the target. -/
def Cex32State : SubsystemState32 :=
  { CurrentContext := ⟨⟨1, -1⟩, ⟨1, -1⟩, ⟨1, -1⟩, ⟨1, -1⟩⟩
    TargetContext := ⟨⟨2 ^ 23 + 1, -33⟩, ⟨1, -1⟩, ⟨1, -1⟩, ⟨1, -1⟩⟩
    TransitionAlpha := ⟨0, 0⟩
    TransitionDuration := ⟨1, 0⟩ }

/-! ### Helper lemmas about the engine math -/

theorem clamp01_eq_minmax (x : ℚ) : FMath.Clamp x 0 1 = min 1 (max 0 x) := by
  unfold FMath.Clamp
  split_ifs with h1 h2
  · rw [max_eq_left h1.le, min_eq_right (by norm_num : (0:ℚ) ≤ 1)]
  · push_neg at h1
    rw [max_eq_right h1, min_eq_right h2.le]
  · push_neg at h1 h2
    rw [max_eq_right h1, min_eq_left h2]

theorem clamp01_mem (x : ℚ) : InRange01 (FMath.Clamp x 0 1) := by
  unfold FMath.Clamp
  split_ifs with h1 h2 <;> constructor <;> linarith

theorem lerp_eq_specLerp (a b t : ℚ) : FMath.Lerp a b t = specLerp a b t := by
  unfold FMath.Lerp specLerp
  ring

theorem fmax_eq_max (a b : ℚ) : FMath.Max a b = max a b := by
  unfold FMath.Max
  split_ifs with h
  · exact (max_eq_left h.le).symm
  · push_neg at h
    exact (max_eq_right h).symm

theorem lerp01_mem {a b t : ℚ} (ha : InRange01 a) (hb : InRange01 b)
    (ht : InRange01 t) : InRange01 (FMath.Lerp a b t) := by
  obtain ⟨ha0, ha1⟩ := ha
  obtain ⟨hb0, hb1⟩ := hb
  obtain ⟨ht0, ht1⟩ := ht
  unfold FMath.Lerp
  constructor <;> nlinarith

/-! ### Claim theorems -/

/-- C1: For every state with progress < 1 and every deltaTime, `Tick`
increments progress by `deltaTime / durationSeconds`, clamps it to [0,1],
and re-lerps each of the four fields of `current` from its live value
toward the fixed `target` with the new progress as blend factor; when
progress ≥ 1 the call leaves current, target and progress unchanged.
Stated as: the state produced by the source's `Tick` equals the
spec-worded `specAdvance` on every input. -/
theorem tick_matches_spec_advance (S : SubsystemState) (Dt : ℚ) :
    (Tick S Dt).1 = specAdvance S Dt := by
  unfold Tick specAdvance
  rcases lt_or_le S.TransitionAlpha 1 with h | h
  · rw [if_pos h, if_neg (not_le.mpr h)]
    simp only [clamp01_eq_minmax, lerp_eq_specLerp]
  · rw [if_neg (not_lt.mpr h), if_pos h]

theorem ctxInvariant_initial : CtxInvariant initialState := by
  refine ⟨⟨⟨?_, ?_⟩, ⟨?_, ?_⟩, ⟨?_, ?_⟩, ⟨?_, ?_⟩⟩,
          ⟨⟨?_, ?_⟩, ⟨?_, ?_⟩, ⟨?_, ?_⟩, ⟨?_, ?_⟩⟩⟩ <;>
    norm_num [initialState, FMusicContext.mkDefault]

theorem inRangeCtx_combat : InRangeCtx CombatContext := by
  refine ⟨⟨?_, ?_⟩, ⟨?_, ?_⟩, ⟨?_, ?_⟩, ⟨?_, ?_⟩⟩ <;> norm_num [CombatContext]

theorem inRangeCtx_boss : InRangeCtx BossContext := by
  refine ⟨⟨?_, ?_⟩, ⟨?_, ?_⟩, ⟨?_, ?_⟩, ⟨?_, ?_⟩⟩ <;> norm_num [BossContext]

theorem inRangeCtx_puzzle : InRangeCtx PuzzleContext := by
  refine ⟨⟨?_, ?_⟩, ⟨?_, ?_⟩, ⟨?_, ?_⟩, ⟨?_, ?_⟩⟩ <;> norm_num [PuzzleContext]

theorem inRangeCtx_victory : InRangeCtx VictoryContext := by
  refine ⟨⟨?_, ?_⟩, ⟨?_, ?_⟩, ⟨?_, ?_⟩, ⟨?_, ?_⟩⟩ <;> norm_num [VictoryContext]

theorem specClamp_outOfRange_eval :
    specClampContext OutOfRangeContext = ⟨1, 1/2, 1/2, 1/2⟩ := by
  unfold specClampContext OutOfRangeContext
  norm_num [min_def, max_def]

/-- C2 counterexample: `SetMusicContext` stores an out-of-range context
verbatim — no setter clamps, so the [0,1] invariant fails for out-of-range
input. -/
theorem setMusicContext_unclamped_cex :
    (SetMusicContext initialState OutOfRangeContext).1.CurrentContext =
      OutOfRangeContext ∧
    ¬ InRangeCtx (SetMusicContext initialState OutOfRangeContext).1.CurrentContext := by
  refine ⟨rfl, fun h => absurd h.1.2 (show ¬(2:ℚ) ≤ 1 by norm_num)⟩

/-- C2 (amended): the setters store their input contexts without clamping
(only the `PushMusicEvent` fallback clamps, and only the intensity), so
the [0,1] invariant holds after every operation provided each input
context is itself in range — it holds initially and is preserved by
`SetMusicContext`, `TransitionToContext`, `PushMusicEvent` (any name and
intensity) and `Tick` (any deltaTime). -/
theorem ctx_setters_preserve_range :
    CtxInvariant initialState ∧
    (∀ S C, CtxInvariant S → InRangeCtx C → CtxInvariant (SetMusicContext S C).1) ∧
    (∀ S C T, CtxInvariant S → InRangeCtx C →
      CtxInvariant (TransitionToContext S C T)) ∧
    (∀ S N I, CtxInvariant S → CtxInvariant (PushMusicEvent S N I)) ∧
    (∀ S Dt, CtxInvariant S → CtxInvariant (Tick S Dt).1) := by
  refine ⟨ctxInvariant_initial, ?_, ?_, ?_, ?_⟩
  · intro S C _ hC
    exact ⟨hC, hC⟩
  · intro S C T hS hC
    exact ⟨hS.1, hC⟩
  · intro S N I hS
    unfold PushMusicEvent SetCombat SetBoss SetPuzzle SetVictory
    split_ifs
    · exact ⟨hS.1, inRangeCtx_combat⟩
    · exact ⟨hS.1, inRangeCtx_boss⟩
    · exact ⟨hS.1, inRangeCtx_puzzle⟩
    · exact ⟨hS.1, inRangeCtx_victory⟩
    · exact ⟨hS.1, hS.1.1, clamp01_mem I, hS.1.2.2.1, hS.1.2.2.2⟩
  · intro S Dt hS
    unfold Tick
    split_ifs with h
    · exact ⟨⟨lerp01_mem hS.1.1 hS.2.1 (clamp01_mem _),
              lerp01_mem hS.1.2.1 hS.2.2.1 (clamp01_mem _),
              lerp01_mem hS.1.2.2.1 hS.2.2.2.1 (clamp01_mem _),
              lerp01_mem hS.1.2.2.2 hS.2.2.2.2 (clamp01_mem _)⟩, hS.2⟩
    · exact hS

/-- C2 witness: the preserved invariant instantiated at concrete calls. -/
theorem ctx_setters_preserve_range_witness :
    CtxInvariant (SetMusicContext initialState CombatContext).1 ∧
    CtxInvariant (TransitionToContext initialState BossContext 2) ∧
    CtxInvariant (PushMusicEvent initialState "victory" 1) ∧
    CtxInvariant (Tick initialState 1).1 :=
  ⟨ctx_setters_preserve_range.2.1 initialState CombatContext ctxInvariant_initial
     inRangeCtx_combat,
   ctx_setters_preserve_range.2.2.1 initialState BossContext 2 ctxInvariant_initial
     inRangeCtx_boss,
   ctx_setters_preserve_range.2.2.2.1 initialState "victory" 1 ctxInvariant_initial,
   ctx_setters_preserve_range.2.2.2.2 initialState 1 ctxInvariant_initial⟩

/-- C3 counterexample: `TransitionToContext` stores the raw context as the
target; for an out-of-range context this differs from the clamped context
the claim promises. -/
theorem transitionTo_unclamped_cex :
    (TransitionToContext initialState OutOfRangeContext 1).TargetContext =
      OutOfRangeContext ∧
    (TransitionToContext initialState OutOfRangeContext 1).TargetContext ≠
      specClampContext OutOfRangeContext := by
  refine ⟨rfl, ?_⟩
  rw [specClamp_outOfRange_eval]
  intro h
  have h2 := congrArg FMusicContext.Energy h
  norm_num [TransitionToContext, OutOfRangeContext] at h2

/-- C3 (amended): for every context C and duration d,
`TransitionToContext(C, d)` sets `target` to C exactly as given (no
clamping), sets `durationSeconds` to max(d, 0.1), resets progress to 0,
and leaves `current` unchanged — including mid-flight, so a retarget
continues from the live partially-interpolated current value. -/
theorem transitionTo_behavior (S : SubsystemState) (C : FMusicContext) (T : ℚ) :
    TransitionToContext S C T =
      { S with TargetContext := C
               TransitionDuration := max (1/10) T
               TransitionAlpha := 0 } ∧
    (TransitionToContext S C T).CurrentContext = S.CurrentContext := by
  unfold TransitionToContext
  rw [fmax_eq_max]
  exact ⟨rfl, rfl⟩

/-- C4 counterexample: `SetMusicContext` stores the raw context as
current and target; for an out-of-range context this differs from the
clamped context the claim promises. -/
theorem setMusicContext_not_clamped_cex :
    (SetMusicContext initialState OutOfRangeContext).1.CurrentContext ≠
      specClampContext OutOfRangeContext ∧
    (SetMusicContext initialState OutOfRangeContext).1.TargetContext ≠
      specClampContext OutOfRangeContext := by
  rw [specClamp_outOfRange_eval]
  constructor <;>
    · intro h
      have h2 := congrArg FMusicContext.Energy h
      norm_num [SetMusicContext, OutOfRangeContext] at h2

/-- C4 (amended): for every context C, `SetMusicContext(C)` sets
`current = target = C` exactly as given (no clamping) and progress to 1,
and every subsequent `Tick`, for any deltaTime, is then a no-op that
sends nothing. -/
theorem setMusicContext_behavior (S : SubsystemState) (C : FMusicContext) :
    (SetMusicContext S C).1.CurrentContext = C ∧
    (SetMusicContext S C).1.TargetContext = C ∧
    (SetMusicContext S C).1.TransitionAlpha = 1 ∧
    (∀ Dt, Tick (SetMusicContext S C).1 Dt = ((SetMusicContext S C).1, [])) := by
  refine ⟨rfl, rfl, rfl, ?_⟩
  intro Dt
  unfold Tick SetMusicContext
  simp

/-- C5: `PushMusicEvent` dispatches by name: `combat_start`, `boss_enter`,
`puzzle_start` and `victory` start 1-second transitions to the Combat
(0.9, 0.8, 0.6, 0.7), Boss (1.0, 0.95, 0.8, 0.9), Puzzle
(0.4, 0.5, 0.3, 0.6) and Victory (0.7, 0.2, 0.1, 0.5) presets; every
other name starts a 0.5-second transition toward a copy of the current
context whose tension is replaced by the clamped intensity, keeping the
other three fields equal to current's. -/
theorem pushMusicEvent_dispatch (S : SubsystemState) (I : ℚ) (N : String) :
    PushMusicEvent S "combat_start" I = TransitionToContext S ⟨9/10, 8/10, 6/10, 7/10⟩ 1 ∧
    PushMusicEvent S "boss_enter" I = TransitionToContext S ⟨1, 95/100, 8/10, 9/10⟩ 1 ∧
    PushMusicEvent S "puzzle_start" I = TransitionToContext S ⟨4/10, 5/10, 3/10, 6/10⟩ 1 ∧
    PushMusicEvent S "victory" I = TransitionToContext S ⟨7/10, 2/10, 1/10, 5/10⟩ 1 ∧
    (N ≠ "combat_start" → N ≠ "boss_enter" → N ≠ "puzzle_start" → N ≠ "victory" →
      PushMusicEvent S N I =
        TransitionToContext S
          ⟨S.CurrentContext.Energy, FMath.Clamp I 0 1,
           S.CurrentContext.Darkness, S.CurrentContext.Complexity⟩ (1/2)) := by
  refine ⟨rfl, rfl, rfl, rfl, ?_⟩
  intro h1 h2 h3 h4
  unfold PushMusicEvent
  rw [if_neg h1, if_neg h2, if_neg h3, if_neg h4]

/-- C5 witness: the generic fallback at the spec's own example,
`pushEvent("unknown_event", 0.75)`. -/
theorem pushMusicEvent_dispatch_witness :
    PushMusicEvent initialState "unknown_event" (3/4) =
      TransitionToContext initialState
        ⟨initialState.CurrentContext.Energy, FMath.Clamp (3/4) 0 1,
         initialState.CurrentContext.Darkness,
         initialState.CurrentContext.Complexity⟩ (1/2) :=
  (pushMusicEvent_dispatch initialState (3/4) "unknown_event").2.2.2.2
    (by decide) (by decide) (by decide) (by decide)

theorem lerp_one (a b : ℚ) : FMath.Lerp a b 1 = b := by
  unfold FMath.Lerp
  ring

theorem run_append (S : SubsystemState) (xs ys : List Event) :
    run S (xs ++ ys) =
      ((run (run S xs).1 ys).1, (run S xs).2 ++ (run (run S xs).1 ys).2) := by
  induction xs generalizing S with
  | nil => simp [run]
  | cons e es ih => simp [run, ih, List.append_assoc]

/-- C6: on every transition to the connected state (the `OnConnected`
transport callback, which fires only while a socket is valid), exactly
one unconditional push of the serialized current context is emitted, and
in the whole event trace it sits after all frames of earlier events and
before all frames of later events — in particular before any tick-driven
push on that connection. -/
theorem onConnected_single_push (S : SubsystemState) (pre post : List Event)
    (h : (run S pre).1.hasValidWebSocket = true) :
    (run S (pre ++ Event.onConnectedEv :: post)).2 =
      (run S pre).2 ++
        (run S pre).1.CurrentContext.serialize ::
          (run (step (run S pre).1 Event.onConnectedEv).1 post).2 := by
  rw [run_append]
  simp [run, step, OnConnected, SendControlUpdate, h]

/-- C6 witness: connect, receive `OnConnected`, then tick — the trace's
frames decompose around the single reconnect push. -/
theorem onConnected_single_push_witness :
    (run initialState
        ([Event.connectEv "ws://localhost:8765"] ++
          Event.onConnectedEv :: [Event.tickEv 1])).2 =
      (run initialState [Event.connectEv "ws://localhost:8765"]).2 ++
        (run initialState [Event.connectEv "ws://localhost:8765"]).1.CurrentContext.serialize ::
          (run (step (run initialState [Event.connectEv "ws://localhost:8765"]).1
              Event.onConnectedEv).1 [Event.tickEv 1]).2 :=
  onConnected_single_push initialState [Event.connectEv "ws://localhost:8765"]
    [Event.tickEv 1] rfl

/-- C7 counterexample: a connected state with a just-started transition
whose target equals the current context.  The tick moves nothing — the
current context (and hence its serialization) is unchanged — yet a frame
is sent: the code has no change check, contradicting "no frame is sent on
a tick in which current did not change". -/
theorem tick_sends_without_change_cex :
    (Tick ConnectedStaleTransitionState (1/2)).1.CurrentContext =
      ConnectedStaleTransitionState.CurrentContext ∧
    (Tick ConnectedStaleTransitionState (1/2)).2 ≠ [] := by
  constructor
  · norm_num [Tick, ConnectedStaleTransitionState, initialState,
      FMusicContext.mkDefault, FMath.Clamp, FMath.Lerp]
  · norm_num [Tick, SendControlUpdate, ConnectedStaleTransitionState, initialState,
      FMath.Clamp, FMath.Lerp]

/-- C7 (amended): during a `Tick` call a transport send occurs iff the
connection flag is set, the socket is valid, and a transition was in
flight (progress < 1) at entry — unconditionally, whether or not the
current context changed at any granularity; in particular no send is ever
attempted while not connected. -/
theorem tick_send_condition (S : SubsystemState) (Dt : ℚ) :
    ((Tick S Dt).2 ≠ [] ↔
      S.bIsConnected = true ∧ S.hasValidWebSocket = true ∧ S.TransitionAlpha < 1) ∧
    (S.bIsConnected = false → (Tick S Dt).2 = []) := by
  constructor
  · by_cases h : S.TransitionAlpha < 1
    · cases hb : S.bIsConnected <;> cases hs : S.hasValidWebSocket <;>
        simp [Tick, SendControlUpdate, h, hb, hs]
    · simp [Tick, h]
  · intro hb
    by_cases h : S.TransitionAlpha < 1 <;>
      simp [Tick, SendControlUpdate, h, hb]

/-- C7 witness: not connected, transition in flight — no frame is sent. -/
theorem tick_send_condition_witness :
    (Tick (TransitionToContext initialState CombatContext 1) 1).2 = [] :=
  (tick_send_condition (TransitionToContext initialState CombatContext 1) 1).2 rfl

/-- C8 counterexample: with a transition halfway through (progress 1/2,
current all-zeros, target all-ones), `Tick 0` re-lerps with the unchanged
progress 1/2 and moves the energy field from 0 to 1/2 — a zero deltaTime
is not a no-op for the current context. -/
theorem tick_zero_delta_moves_cex :
    (Tick MidFlightState 0).1.CurrentContext.Energy = 1/2 ∧
    MidFlightState.CurrentContext.Energy = 0 := by
  constructor
  · norm_num [Tick, MidFlightState, initialState, FMath.Clamp, FMath.Lerp]
  · rfl

/-- C8 (amended): `Tick` with deltaTime ≤ 0 completes without error and
never increases progress (for in-range states: zero leaves progress
unchanged, a negative delta can only decrease it, clamped at 0) and
leaves the target unchanged — but it is not a no-op for the current
context: the re-lerp with the clamped progress still executes and can
move `current` toward `target`. -/
theorem tick_nonpositive_delta (S : SubsystemState) (Dt : ℚ)
    (hdt : Dt ≤ 0) (hdur : 0 < S.TransitionDuration)
    (ha : 0 ≤ S.TransitionAlpha) :
    (Tick S Dt).1.TransitionAlpha ≤ S.TransitionAlpha ∧
    (Dt = 0 → (Tick S Dt).1.TransitionAlpha = S.TransitionAlpha) ∧
    (Tick S Dt).1.TargetContext = S.TargetContext := by
  unfold Tick
  by_cases h : S.TransitionAlpha < 1
  · rw [if_pos h]
    have hdiv : Dt / S.TransitionDuration ≤ 0 :=
      div_nonpos_of_nonpos_of_nonneg hdt hdur.le
    refine ⟨?_, ?_, rfl⟩
    · show FMath.Clamp (S.TransitionAlpha + Dt / S.TransitionDuration) 0 1 ≤
        S.TransitionAlpha
      unfold FMath.Clamp
      split_ifs with h1 h2
      · linarith
      · linarith
      · linarith
    · intro h0
      subst h0
      show FMath.Clamp (S.TransitionAlpha + 0 / S.TransitionDuration) 0 1 =
        S.TransitionAlpha
      unfold FMath.Clamp
      rw [zero_div, add_zero]
      split_ifs with h1
      · linarith
      · rfl
  · rw [if_neg h]
    exact ⟨le_refl _, fun _ => rfl, rfl⟩

/-- C8 witness: the amended property at the midway state with zero delta. -/
theorem tick_nonpositive_delta_witness :
    (Tick MidFlightState 0).1.TransitionAlpha ≤ MidFlightState.TransitionAlpha ∧
    (Tick MidFlightState 0).1.TargetContext = MidFlightState.TargetContext :=
  ⟨(tick_nonpositive_delta MidFlightState 0 le_rfl
      (by norm_num [MidFlightState, initialState])
      (by norm_num [MidFlightState, initialState])).1,
   (tick_nonpositive_delta MidFlightState 0 le_rfl
      (by norm_num [MidFlightState, initialState])
      (by norm_num [MidFlightState, initialState])).2.2⟩

/-- C9 counterexample: in the connecting state (socket created by
`Connect`, `OnConnected` not yet fired) a second `Connect` is not a no-op
— it creates a second socket — and `Disconnect` returns without closing
the in-flight socket, leaving the full state untouched. -/
theorem connecting_state_cex :
    ConnectingState.bIsConnected = false ∧
    ConnectingState.hasValidWebSocket = true ∧
    (Connect ConnectingState "ws://other").socketsCreated = 2 ∧
    Disconnect ConnectingState = ConnectingState :=
  ⟨rfl, rfl, rfl, rfl⟩

/-- C9 (amended): `Connect` is a no-op (with a warning) only when the
connected flag is already set; whenever it is not — including while a
previous attempt is still connecting — it records the URL and creates a
fresh socket, so duplicate sockets are possible mid-connect.
`Disconnect` closes the socket and clears the flag only when currently
connected; when not connected it returns immediately without touching
any in-flight socket (idempotent in the fully-disconnected state). -/
theorem connect_disconnect_behavior (S : SubsystemState) (url : String) :
    (S.bIsConnected = true → Connect S url = S) ∧
    (S.bIsConnected = false →
      (Connect S url).socketsCreated = S.socketsCreated + 1 ∧
      (Connect S url).hasValidWebSocket = true ∧
      (Connect S url).bIsConnected = false ∧
      (Connect S url).ServerURL = url) ∧
    (S.bIsConnected = false → Disconnect S = S) ∧
    (S.bIsConnected = true →
      (Disconnect S).bIsConnected = false ∧
      (Disconnect S).hasValidWebSocket = false) := by
  refine ⟨?_, ?_, ?_, ?_⟩
  · intro hb
    simp [Connect, hb]
  · intro hb
    simp [Connect, hb]
  · intro hb
    simp [Disconnect, hb]
  · intro hb
    cases hs : S.hasValidWebSocket <;> simp [Disconnect, hb, hs]

/-- C9 witness: the amended contract at concrete connected, connecting
and disconnected states. -/
theorem connect_disconnect_behavior_witness :
    Connect (OnConnected ConnectingState).1 "ws://other" =
      (OnConnected ConnectingState).1 ∧
    (Connect initialState "ws://localhost:8765").socketsCreated =
      initialState.socketsCreated + 1 ∧
    Disconnect initialState = initialState ∧
    (Disconnect (OnConnected ConnectingState).1).bIsConnected = false :=
  ⟨(connect_disconnect_behavior (OnConnected ConnectingState).1 "ws://other").1 rfl,
   ((connect_disconnect_behavior initialState "ws://localhost:8765").2.1 rfl).1,
   (connect_disconnect_behavior initialState "ws://localhost:8765").2.2.1 rfl,
   ((connect_disconnect_behavior (OnConnected ConnectingState).1 "ws://other").2.2.2
      rfl).1⟩

set_option maxRecDepth 8000

/-- C10 counterexample: in binary32 the terminal tick does not converge
bitwise.  At `Cex32State`, one full-duration tick clamps progress to
exactly 1, yet the energy field lands at `2 ^ (-10)`, one ulp below the
target `(2 ^ 23 + 1) * 2 ^ (-33)`: `fl(A + fl(B - A))` is not `B`, so
"current exactly equal to target in full floating-point equality" is
false of the code. -/
theorem tick32_terminal_inexact_cex :
    Dyadic.valEq (Tick32 Cex32State ⟨1, 0⟩).TransitionAlpha ⟨1, 0⟩ ∧
    ¬ Dyadic.valEq (Tick32 Cex32State ⟨1, 0⟩).CurrentContext.Energy
        Cex32State.TargetContext.Energy := by
  decide

/-- C10 (amended): on the first `Tick` of a transition in which the
accumulated progress reaches or exceeds 1, progress is clamped to
exactly 1 and the re-lerp is invoked with blend factor exactly 1; under
exact arithmetic (the rational idealization of the float expressions)
this makes `current` exactly equal to `target`, field by field — in the
program's binary32 arithmetic the terminal value can be off in the last
place, so exact convergence holds in the idealization, not bitwise. -/
theorem tick_terminal_exact (S : SubsystemState) (Dt : ℚ)
    (hin : S.TransitionAlpha < 1)
    (hreach : 1 ≤ S.TransitionAlpha + Dt / S.TransitionDuration) :
    (Tick S Dt).1.TransitionAlpha = 1 ∧
    (Tick S Dt).1.CurrentContext = S.TargetContext := by
  unfold Tick
  rw [if_pos hin]
  have hA : FMath.Clamp (S.TransitionAlpha + Dt / S.TransitionDuration) 0 1 = 1 := by
    unfold FMath.Clamp
    split_ifs with h1 h2
    · linarith
    · linarith
    · rfl
  constructor
  · simpa using hA
  · simp only [hA, lerp_one]

/-- C10 witness: a fresh 1-second transition to the Combat preset ticked
with a full 1-second delta lands exactly on the target with progress 1. -/
theorem tick_terminal_exact_witness :
    (Tick (TransitionToContext initialState CombatContext 1) 1).1.TransitionAlpha = 1 ∧
    (Tick (TransitionToContext initialState CombatContext 1) 1).1.CurrentContext =
      (TransitionToContext initialState CombatContext 1).TargetContext :=
  tick_terminal_exact (TransitionToContext initialState CombatContext 1) 1
    (by norm_num [TransitionToContext])
    (by norm_num [TransitionToContext, FMath.Max])
